import Mathlib

/-!
Verification of the WordScape colorization-and-recovery annotation engine.

This file embeds, as Lean definitions, the parts of the code that the
checked properties speak about:

* `settings/colors.py` — the HSV palette, its range constants and the
  module-level construction checks;
* `src/annotation/colorization/colorization_handler.py` — the generic
  per-paragraph color cycling step (`__update_application_color`);
* `src/annotation/colorization/entities/tables/table_colorization_handler.py`
  — the table-cell color cycling step (`_make_color_cycle_step`) and the
  conditional-style selection (`__get_tc_cond_style_applied`);
* `src/annotation/colorization/heuristics/build_heuristics.py` — the
  observed-builtin branch of `ParagraphHeuristic.__build_map`;
* `src/annotation/colorization/heuristics/content_awareness.py` — `quote_check`;
* `src/annotation/text/text_entity_matching.py` and
  `src/annotation/utils/bbox_utils.py` — word-to-entity linking;
* `src/annotation/annotation_objects.py` — `BoundingBox`, `Entity`, `Word`;
* `src/annotation/postprocessing/{filters,table,postprocess}.py` — the
  deduplication / emptiness / trimming passes and table structure inference.

Python floats are embedded as exact rationals (ℚ); `math.isclose` is embedded
with its exact definition on ℚ.  The SHA1 hash that `Entity.__post_init__`
computes over the entity's canonical string form is embedded as the canonical
tuple of the hashed fields themselves (an injective idealization of the hash).
-/

namespace WordScape

/-! ### settings/colors.py -/

/-- An HSV color in OpenCV convention: hue, saturation, value. -/
abbrev HsvColor := Int × Int × Int

def GRANULARITY : Int := 7

def COLOR_WHITESPACE : HsvColor := (0, 0, 0)
def COLOR_DOCUMENT_TITLE : HsvColor := (7, 255, 255)
def COLOR_SECTION_HEADING_1 : HsvColor := (14, 255, 255)
def COLOR_SECTION_HEADING_2 : HsvColor := (14, 235, 255)
def COLOR_SECTION_HEADING_3 : HsvColor := (14, 215, 255)
def COLOR_SECTION_HEADING_4 : HsvColor := (14, 195, 255)
def COLOR_SECTION_HEADING_5 : HsvColor := (14, 175, 255)
def COLOR_SECTION_HEADING_6 : HsvColor := (14, 155, 255)
def COLOR_SECTION_HEADING_7 : HsvColor := (14, 135, 255)
def COLOR_SECTION_HEADING_8 : HsvColor := (14, 115, 255)
def COLOR_SECTION_HEADING_9 : HsvColor := (14, 95, 255)
def COLOR_TEXT : HsvColor := (21, 255, 255)
def COLOR_LIST : HsvColor := (28, 255, 255)
def COLOR_HEADER : HsvColor := (35, 255, 255)
def COLOR_FOOTER : HsvColor := (42, 255, 255)
def COLOR_TABLE_HEADER : HsvColor := (49, 255, 255)
def COLOR_TABLE : HsvColor := (56, 255, 255)
def COLOR_TOC : HsvColor := (77, 255, 255)
def COLOR_QUOTE : HsvColor := (84, 255, 255)
def COLOR_EQUATION : HsvColor := (91, 255, 255)
def COLOR_FIGURES : HsvColor := (98, 255, 255)
def COLOR_TABLE_CAPTIONS : HsvColor := (105, 255, 255)
def COLOR_FOOTNOTE : HsvColor := (117, 255, 255)
def COLOR_ANNOTATION_MARK : HsvColor := (122, 255, 255)
def COLOR_BIBLIOGRAPHY : HsvColor := (130, 255, 255)
def COLOR_FORM_FIELD : HsvColor := (160, 255, 255)
def COLOR_FORM_TAG : HsvColor := (167, 255, 255)

/-- `ALL_COLORS` of `settings/colors.py`: every `COLOR_*` tuple, sorted by
increasing hue, with `COLOR_WHITESPACE` removed. -/
def ALL_COLORS : List HsvColor := [
  COLOR_DOCUMENT_TITLE,
  COLOR_SECTION_HEADING_1, COLOR_SECTION_HEADING_2, COLOR_SECTION_HEADING_3,
  COLOR_SECTION_HEADING_4, COLOR_SECTION_HEADING_5, COLOR_SECTION_HEADING_6,
  COLOR_SECTION_HEADING_7, COLOR_SECTION_HEADING_8, COLOR_SECTION_HEADING_9,
  COLOR_TEXT, COLOR_LIST, COLOR_HEADER, COLOR_FOOTER,
  COLOR_TABLE_HEADER, COLOR_TABLE, COLOR_TOC, COLOR_QUOTE, COLOR_EQUATION,
  COLOR_FIGURES, COLOR_TABLE_CAPTIONS, COLOR_FOOTNOTE, COLOR_ANNOTATION_MARK,
  COLOR_BIBLIOGRAPHY, COLOR_FORM_FIELD, COLOR_FORM_TAG
]

def SAT_MIN : Int := 50
def SAT_MAX : Int := 255
def VAL_MIN : Int := 50
def VAL_MAX : Int := 255
def HUE_MIN : Int := 0
def HUE_MAX : Int := 179
def SAT_VAL_STEP : Int := 2
def NONTABLE_SAT_MIN : Int := 200
def NONTABLE_VAL_MIN : Int := 200

def ENTITIES_HUES_WITHOUT_CYCLING : List Int := [
  COLOR_DOCUMENT_TITLE.1,
  COLOR_SECTION_HEADING_1.1, COLOR_SECTION_HEADING_2.1,
  COLOR_SECTION_HEADING_3.1, COLOR_SECTION_HEADING_4.1,
  COLOR_SECTION_HEADING_5.1, COLOR_SECTION_HEADING_6.1,
  COLOR_SECTION_HEADING_7.1, COLOR_SECTION_HEADING_8.1,
  COLOR_SECTION_HEADING_9.1,
  COLOR_TEXT.1
]

/-- The range condition checked for each color by the first module-level
assert of `settings/colors.py`. -/
def color_in_range (c : HsvColor) : Bool :=
  decide (HUE_MIN ≤ c.1) && decide (c.1 ≤ HUE_MAX) &&
  decide (SAT_MIN ≤ c.2.1) && decide (c.2.1 ≤ SAT_MAX) &&
  decide (VAL_MIN ≤ c.2.2) && decide (c.2.2 ≤ VAL_MAX)

/-- The first module-level assert of `settings/colors.py`: every color of the
palette lies in the valid device range. -/
def palette_range_check (colors : List HsvColor) : Bool :=
  colors.all color_in_range

/-- The second module-level assert of `settings/colors.py`:
`COLOR_TABLE[0] - COLOR_TABLE_HEADER[0] == GRANULARITY`. -/
def granularity_check (table header : HsvColor) : Bool :=
  table.1 - header.1 == GRANULARITY

/-! ### ColorizationHandler.__update_application_color
(src/annotation/colorization/colorization_handler.py)

The generic per-paragraph cycling step: given the base color of the category
and the currently tracked color, produce the next tracked color.  Categories
whose hue is in `ENTITIES_HUES_WITHOUT_CYCLING` never cycle; otherwise the
value component is decremented by `SAT_VAL_STEP` and reset to the base value
when it falls below `NONTABLE_VAL_MIN`. -/

def update_application_color (base_color cur : HsvColor) : HsvColor :=
  if ENTITIES_HUES_WITHOUT_CYCLING.contains cur.1 then cur
  else
    let val := cur.2.2 - SAT_VAL_STEP
    let val := if val < NONTABLE_VAL_MIN then base_color.2.2 else val
    (cur.1, cur.2.1, val)

/-- The sequence of colors emitted for a cycling category across successive
emissions: the first emission uses the base color, and each emission is
followed by one `update_application_color` step. -/
def generic_color_seq (base : HsvColor) : Nat → HsvColor
  | 0 => base
  | n + 1 => update_application_color base (generic_color_seq base n)

/-! ### _make_color_cycle_step
(src/annotation/colorization/entities/tables/table_colorization_handler.py) -/

/-- One step through HSV space for table / table-header cells: decrement the
value; on falling below `VAL_MIN` reset the value to the base value and
decrement the saturation, resetting it to its base on falling below
`SAT_MIN`.  Returns the new saturation and value. -/
def make_color_cycle_step (sat sat_base val val_base sat_val_step : Int) :
    Int × Int :=
  let val := val - sat_val_step
  if val < VAL_MIN then
    let val := val_base
    let sat := sat - sat_val_step
    if sat < SAT_MIN then (sat_base, val) else (sat, val)
  else (sat, val)

/-- The sequence of (sat, val) pairs emitted for cells of one table: the first
cell uses the base color, and each emission is followed by one
`make_color_cycle_step`. -/
def table_cycle_seq (sat_base val_base : Int) : Nat → Int × Int
  | 0 => (sat_base, val_base)
  | n + 1 =>
    let p := table_cycle_seq sat_base val_base n
    make_color_cycle_step p.1 sat_base p.2 val_base SAT_VAL_STEP

/-! ### src/annotation/annotation_objects.py -/

/-- `BoundingBox` of `annotation_objects.py`: top-left corner, width, height.
Coordinates are Python floats, embedded as exact rationals. -/
structure BoundingBox where
  x : ℚ
  y : ℚ
  width : ℚ
  height : ℚ
deriving DecidableEq, Repr

/-- `BoundingBox.area`. -/
def BoundingBox.area (b : BoundingBox) : ℚ := b.width * b.height

/-- The canonical form of an entity's identifying fields.
`Entity.__post_init__` computes `id = sha1(repr(entity))` over the canonical
string of `(doc_id, page_id, page_num, entity_category, bbox)`; the hash is
embedded as the canonical tuple itself (an injective idealization). -/
abbrev EntityId := String × String × Int × Int × BoundingBox

/-- `Entity` of `annotation_objects.py`.  The `id` field is set once by
`__post_init__` from the other fields at construction time (see `mk_entity`)
and is never recomputed afterwards. -/
structure Entity where
  doc_id : String
  page_id : String
  page_num : Int
  entity_category : Int
  bbox : BoundingBox
  id : EntityId
deriving DecidableEq, Repr

/-- The id computed by `Entity.__post_init__` from the fields at construction
time. -/
def entity_id_of (doc_id page_id : String) (page_num entity_category : Int)
    (bbox : BoundingBox) : EntityId :=
  (doc_id, page_id, page_num, entity_category, bbox)

/-- Constructing an `Entity` runs `__post_init__`, which computes `id` from
the current field values. -/
def mk_entity (doc_id page_id : String) (page_num entity_category : Int)
    (bbox : BoundingBox) : Entity :=
  { doc_id := doc_id, page_id := page_id, page_num := page_num,
    entity_category := entity_category, bbox := bbox,
    id := entity_id_of doc_id page_id page_num entity_category bbox }

/-- `Word` of `annotation_objects.py` (the fields the postprocessing and
linking passes read). -/
structure Word where
  doc_id : String
  entity_ids : List EntityId
  entity_categories : List Int
  page_num : Int
  bbox : BoundingBox
  text : String
deriving DecidableEq, Repr

/-! ### src/annotation/utils/bbox_utils.py -/

/-- `area_of_overlap`: area of the intersection of two axis-aligned boxes. -/
def area_of_overlap (bbox1 bbox2 : BoundingBox) : ℚ :=
  let x_left := max bbox1.x bbox2.x
  let x_right := min (bbox1.x + bbox1.width) (bbox2.x + bbox2.width)
  let y_top := max bbox1.y bbox2.y
  let y_bottom := min (bbox1.y + bbox1.height) (bbox2.y + bbox2.height)
  if x_right < x_left ∨ y_bottom < y_top then 0
  else (x_right - x_left) * (y_bottom - y_top)

/-- Python's `math.isclose(a, b, rel_tol, abs_tol)`, embedded exactly on ℚ:
`|a - b| <= max(rel_tol * max(|a|, |b|), abs_tol)`. -/
def isclose (rel_tol abs_tol a b : ℚ) : Bool :=
  decide (|a - b| ≤ max (rel_tol * max |a| |b|) abs_tol)

/-- Python's default `rel_tol=1e-9`. -/
def REL_TOL_DEFAULT : ℚ := 1 / 1000000000

namespace BboxUtils

/-- `bbox_utils.is_contained_in`: bbox1 is contained in bbox2 when the
intersection area equals bbox1's area, compared with `math.isclose` at the
default tolerances. -/
def is_contained_in (bbox1 bbox2 : BoundingBox) : Bool :=
  let area_bbox1 := bbox1.width * bbox1.height
  isclose REL_TOL_DEFAULT 0 (area_of_overlap bbox1 bbox2) area_bbox1

end BboxUtils

/-! ### src/annotation/text/text_entity_matching.py -/

namespace TextMatching

/-- `text_entity_matching.is_contained_in`: bbox1 is contained in bbox2 by at
least the threshold, measured relative to bbox1's own area. -/
def is_contained_in (bbox1 bbox2 : BoundingBox) (threshold : ℚ) : Bool :=
  if bbox1.area ≤ 0 then false
  else decide (area_of_overlap bbox1 bbox2 / bbox1.area ≥ threshold)

/-- `_find_candidate_entities`: the entities a word gets linked to. -/
def find_candidate_entities (word : Word) (entities : List Entity)
    (threshold : ℚ) : List Entity :=
  entities.filter (fun e => is_contained_in word.bbox e.bbox threshold)

end TextMatching

/-! ### ParagraphHeuristic.__build_map, observed-builtin branch
(src/annotation/colorization/heuristics/build_heuristics.py)

When `builtin_heading_tracker` is non-empty, the map is built only from the
tracked `(font signature, heading level)` pairs: a signature not yet in the
map is inserted with the observed level, and an existing binding is replaced
only when the newly observed level is numerically greater. -/

/-- One tracker pair folded into the map (the body of the
`for pair in self.builtin_heading_tracker` loop). -/
def observe_builtin_pair (m : String → Option Int) (pair : String × Int) :
    String → Option Int :=
  match m pair.1 with
  | some prior =>
    if pair.2 > prior then
      fun s => if s = pair.1 then some pair.2 else m s
    else m
  | none => fun s => if s = pair.1 then some pair.2 else m s

/-- The heuristic map built in observed-builtin mode. -/
def build_heuristic_map_builtin (tracker : List (String × Int)) :
    String → Option Int :=
  tracker.foldl observe_builtin_pair (fun _ => none)

/-- The numerically greatest heading level observed for a signature in the
tracker (`none` when the signature never occurs). -/
def max_observed_level (sig : String) : List (String × Int) → Option Int
  | [] => none
  | p :: rest =>
    if p.1 = sig then
      match max_observed_level sig rest with
      | some m => some (max p.2 m)
      | none => some p.2
    else max_observed_level sig rest

/-! ### quote_check
(src/annotation/colorization/heuristics/content_awareness.py) -/

/-- `QUOTE_SYMBOLS` of `settings/content_awareness.py`: the straight double
quote and the straight single quote. -/
def QUOTE_SYMBOLS : List Char := [Char.ofNat 34, Char.ofNat 39]

/-- `quote_check` on the paragraph's text (as a list of characters): for
non-empty text, true when the first character equals the last character and
the first character is in `QUOTE_SYMBOLS`. -/
def quote_check : List Char → Bool
  | [] => false
  | c :: cs => (c == cs.getLastD c) && QUOTE_SYMBOLS.contains c

/-! ### TableColorizationHandler.__get_tc_cond_style_applied
(src/annotation/colorization/entities/tables/table_colorization_handler.py)

Only the selection of the conditional style block is embedded; the eight
entries of `ConditionalStyles` that can be appended to `applied_styles` are
represented by tags. -/

/-- The eight conditional-style blocks that `__get_tc_cond_style_applied` can
append to `applied_styles`, in the source's append order. -/
inductive CondRegion where
  | firstRow | band2Horz | band1Horz | lastRow
  | firstCol | band2Vert | band1Vert | lastCol
deriving DecidableEq, Repr

/-- The cell/row-level `cnfStyle` flags read by the selection (each is the
string value of the XML attribute, absent = `None`). -/
structure CnfStyle where
  firstRow : Option String
  lastRow : Option String
  firstColumn : Option String
  lastColumn : Option String
  oddVBand : Option String
  evenVBand : Option String
  oddHBand : Option String
  evenHBand : Option String
deriving DecidableEq, Repr

/-- The table-level `tblLook` flags read by the selection. -/
structure TableLook where
  firstRow : Option String
  firstColumn : Option String
  lastRow : Option String
  lastColumn : Option String
  noHBand : Option String
  noVBand : Option String
deriving DecidableEq, Repr

/-- Python's `x in [a, b]` test on an optional attribute value
(`None in [a, b]` is false for string lists). -/
def opt_in (x : Option String) (l : List String) : Bool :=
  match x with
  | some s => l.contains s
  | none => false

/-- `TableLookAttributes.__post_init__`: conditional styling is used when a
positive flag is set or a negative band flag is cleared. -/
def use_conditional_styling (look : TableLook) : Bool :=
  opt_in look.firstRow ["true", "1"] || opt_in look.firstColumn ["true", "1"] ||
  opt_in look.lastRow ["true", "1"] || opt_in look.lastColumn ["true", "1"] ||
  opt_in look.noHBand ["false", "0"] || opt_in look.noVBand ["false", "0"]

/-- The `applied_styles` list accumulated by
`__get_tc_cond_style_applied`, in the source's append order. -/
def applied_styles (cnf : CnfStyle) (look : TableLook) : List CondRegion :=
  (if opt_in cnf.firstRow ["1", "true"] && opt_in look.firstRow ["1", "true"]
   then [CondRegion.firstRow] else []) ++
  (if opt_in cnf.evenHBand ["1", "true"] && opt_in look.noHBand ["0", "false"]
   then [CondRegion.band2Horz] else []) ++
  (if opt_in cnf.oddHBand ["1", "true"] && opt_in look.noHBand ["0", "false"]
   then [CondRegion.band1Horz] else []) ++
  (if opt_in cnf.lastRow ["1", "true"] && opt_in look.lastRow ["1", "true"]
   then [CondRegion.lastRow] else []) ++
  (if opt_in cnf.firstColumn ["1", "true"] &&
      opt_in look.firstColumn ["1", "true"]
   then [CondRegion.firstCol] else []) ++
  (if opt_in cnf.evenVBand ["1", "true"] && opt_in look.noVBand ["0", "false"]
   then [CondRegion.band2Vert] else []) ++
  (if opt_in cnf.oddVBand ["1", "true"] && opt_in look.noVBand ["0", "false"]
   then [CondRegion.band1Vert] else []) ++
  (if opt_in cnf.lastColumn ["1", "true"] && opt_in look.lastColumn ["1", "true"]
   then [CondRegion.lastCol] else [])

/-- The outcome of `__get_tc_cond_style_applied`: `none` models the
`assert len(applied_styles) == 1` failing (an `AssertionError`); `some none`
is the zero (empty) conditional style; `some (some r)` is the single selected
block. -/
def get_tc_cond_style_applied (cnf : CnfStyle) (look : TableLook) :
    Option (Option CondRegion) :=
  if use_conditional_styling look = false then some none
  else
    match applied_styles cnf look with
    | [] => some none
    | [r] => some (some r)
    | _ => none

/-! ### Entity category ids

Modelled from the spec: `settings/entities.py` (the module assigning a
numeric id to each category of the fixed taxonomy) is not among the provided
sources; only its importers are.  The spec fixes the taxonomy ("a fixed
taxonomy value such as title, heading-N, body text, list, table, table-cell,
figure, form-field, etc.") but not the numeric values, so the ids are
embedded as arbitrary distinct integers; every verified property depends only
on their distinctness and on which named constants appear in the category
lists of `filters.py`. -/

def ENTITY_TABLE_ID : Int := 15
def ENTITY_TABLE_ROW_ID : Int := 16
def ENTITY_TABLE_COLUMN_ID : Int := 17
def ENTITY_TABLE_CELL_ID : Int := 18
def ENTITY_TABLE_HEADER_ID : Int := 19
def ENTITY_TABLE_HEADER_ROW_ID : Int := 20
def ENTITY_TABLE_HEADER_CELL_ID : Int := 21
def ENTITY_FIGURE_ID : Int := 22
def ENTITY_FORM_FIELD_ID : Int := 23

/-! ### src/annotation/postprocessing/filters.py -/

/-- `ALLOWED_EMPTY_ENTITY_CATEGORY_IDS`, in source order. -/
def ALLOWED_EMPTY_ENTITY_CATEGORY_IDS : List Int := [
  ENTITY_TABLE_ID, ENTITY_TABLE_ROW_ID, ENTITY_TABLE_COLUMN_ID,
  ENTITY_TABLE_HEADER_ROW_ID, ENTITY_TABLE_CELL_ID, ENTITY_TABLE_HEADER_ID,
  ENTITY_TABLE_HEADER_CELL_ID, ENTITY_FIGURE_ID, ENTITY_FORM_FIELD_ID
]

/-- `EXCLUDE_ENTITIES_FROM_TRIMMING`, in source order. -/
def EXCLUDE_ENTITIES_FROM_TRIMMING : List Int := [
  ENTITY_TABLE_ID, ENTITY_TABLE_CELL_ID, ENTITY_TABLE_ROW_ID,
  ENTITY_TABLE_COLUMN_ID, ENTITY_TABLE_HEADER_ID,
  ENTITY_TABLE_HEADER_CELL_ID, ENTITY_TABLE_HEADER_ROW_ID,
  ENTITY_FIGURE_ID, ENTITY_FORM_FIELD_ID
]

/-- The per-page `{category id → [Entity]}` dictionary, embedded as an
association list (Python dicts preserve insertion order). -/
abbrev EntMap := List (Int × List Entity)

/-- `entities.get(k, default)`. -/
def map_getD (m : EntMap) (k : Int) (d : List Entity) : List Entity :=
  match m.find? (fun p => decide (p.1 = k)) with
  | some p => p.2
  | none => d

/-- `k in entities.keys()`. -/
def map_contains (m : EntMap) (k : Int) : Bool :=
  (m.find? (fun p => decide (p.1 = k))).isSome

/-- `entities[k] = v` (dict assignment: overwrite in place, else append). -/
def map_set (m : EntMap) (k : Int) (v : List Entity) : EntMap :=
  if map_contains m k then m.map (fun p => if p.1 = k then (k, v) else p)
  else m ++ [(k, v)]

/-- The body of `apply_deduplication_filter`: entities are inserted into a
dict keyed by `Entity.id`, first writer wins, and the dict's values are
returned in insertion order. -/
def dedup_aux (seen : List EntityId) : List Entity → List Entity
  | [] => []
  | e :: es =>
    if e.id ∈ seen then dedup_aux seen es
    else e :: dedup_aux (e.id :: seen) es

/-- `apply_deduplication_filter` of `filters.py`. -/
def apply_deduplication_filter (entities : List Entity) : List Entity :=
  dedup_aux [] entities

/-- The spec's description of the dedup pass, written from its words: keep
the first occurrence of each `Entity.id`, deleting every later occurrence,
preserving input order.  Used to compare `apply_deduplication_filter`
against the specified behavior. -/
def keep_first_occurrences : List Entity → List Entity
  | [] => []
  | e :: es =>
    e :: keep_first_occurrences (es.filter (fun x => decide (x.id ≠ e.id)))
termination_by l => l.length
decreasing_by simpa using Nat.lt_succ_of_le (List.length_filter_le _ es)

/-- The `entity_ids_with_words` set of `apply_emptiness_filter`: all entity
ids appearing in some word's `entity_ids`. -/
def entity_ids_with_words (words : List Word) : List EntityId :=
  words.foldl (fun acc w => acc ++ w.entity_ids) []

/-- `apply_emptiness_filter` of `filters.py`: in categories not allowed to be
empty, keep only entities linked to at least one word. -/
def apply_emptiness_filter (entities : EntMap) (words : List Word) : EntMap :=
  entities.map (fun p =>
    if ALLOWED_EMPTY_ENTITY_CATEGORY_IDS.contains p.1 then p
    else (p.1, p.2.filter (fun e =>
      decide (e.id ∈ entity_ids_with_words words))))

/-- The `bounding_boxes_per_entity_id` defaultdict of
`apply_trimming_transform`, read at one entity id: every word contributes its
bbox once per occurrence of the id in its `entity_ids`. -/
def bounding_boxes_per_entity_id (words : List Word) (eid : EntityId) :
    List BoundingBox :=
  words.foldl (fun acc w =>
    w.entity_ids.foldl (fun acc2 i =>
      if i = eid then acc2 ++ [w.bbox] else acc2) acc) []

/-- Python's `min` over a list (`None` on the empty list, where Python
raises `ValueError`). -/
def list_min : List ℚ → Option ℚ
  | [] => none
  | x :: xs => some (xs.foldl min x)

/-- Python's `max` over a list (`None` on the empty list). -/
def list_max : List ℚ → Option ℚ
  | [] => none
  | x :: xs => some (xs.foldl max x)

/-- Python's `int()` truncation toward zero on a float. -/
def pytrunc (q : ℚ) : Int := if q < 0 then -((-q).floor) else q.floor

/-- `_trim_entity` of `filters.py`: replace the entity's bbox by the
smallest integer box enclosing all word boxes linked to it.  The aggregations
raise on an empty list in Python; this is modelled by `none`. -/
def trim_entity (entity : Entity) (words_bounding_boxes : List BoundingBox) :
    Option Entity := do
  let x ← list_min (words_bounding_boxes.map (fun b => b.x))
  let y ← list_min (words_bounding_boxes.map (fun b => b.y))
  let xw ← list_max (words_bounding_boxes.map (fun b => b.x + b.width))
  let yh ← list_max (words_bounding_boxes.map (fun b => b.y + b.height))
  let xi : Int := pytrunc x
  let yi : Int := pytrunc y
  let w : Int := pytrunc (xw - (xi : ℚ))
  let h : Int := pytrunc (yh - (yi : ℚ))
  some { entity with
    bbox := { x := (xi : ℚ), y := (yi : ℚ), width := (w : ℚ),
              height := (h : ℚ) } }

/-- `apply_trimming_transform` of `filters.py`. -/
def apply_trimming_transform (entities : EntMap) (words : List Word) :
    Option EntMap :=
  entities.mapM (fun p =>
    if EXCLUDE_ENTITIES_FROM_TRIMMING.contains p.1 then some p
    else do
      let es ← p.2.mapM (fun e =>
        trim_entity e (bounding_boxes_per_entity_id words e.id))
      some (p.1, es))

/-- `postprocess_entities_content_based` of `postprocess.py`, for one page:
the emptiness filter runs first, then the trimming transform, over the same
word list. -/
def postprocess_entities_content_based_page (entities : EntMap)
    (words : List Word) : Option EntMap :=
  apply_trimming_transform (apply_emptiness_filter entities words) words

/-! ### src/annotation/postprocessing/table.py -/

def CELL_CLOSENESS_TOLERANCE : ℚ := 5

/-- Python's `max(l, key=f)`: the first element with maximal key (`None` on
the empty list, where Python raises). -/
def pymax_by {α : Type} (f : α → ℚ) : List α → Option α
  | [] => none
  | x :: xs => some (xs.foldl (fun best c => if f c > f best then c else best) x)

/-- Python's `min(l, key=f)`: the first element with minimal key. -/
def pymin_by {α : Type} (f : α → ℚ) : List α → Option α
  | [] => none
  | x :: xs => some (xs.foldl (fun best c => if f c < f best then c else best) x)

/-- The distinct values of a list (`set(...)` in the source; a Python set has
no specified iteration order, embedded as first-occurrence order). -/
def unique_vals : List ℚ → List ℚ
  | [] => []
  | x :: xs =>
    let r := unique_vals xs
    if x ∈ r then r else x :: r

/-- `_group_rows_raw`: one (possibly overlapping) group per distinct `y`,
containing the cells whose `y` is within `CELL_CLOSENESS_TOLERANCE`. -/
def group_rows_raw (cells : List BoundingBox) : List (List BoundingBox) :=
  if cells.length = 0 then []
  else (unique_vals (cells.map (fun c => c.y))).map (fun y =>
    cells.filter (fun c =>
      isclose REL_TOL_DEFAULT CELL_CLOSENESS_TOLERANCE c.y y))

/-- `_group_columns_raw`: the same grouping on the x axis. -/
def group_columns_raw (cells : List BoundingBox) : List (List BoundingBox) :=
  if cells.length = 0 then []
  else (unique_vals (cells.map (fun c => c.x))).map (fun x =>
    cells.filter (fun c =>
      isclose REL_TOL_DEFAULT CELL_CLOSENESS_TOLERANCE c.x x))

/-- `_extend_rows`: extend each row's box to the smallest x-range covering any
cell whose vertical span covers the row's height. -/
def extend_rows (rows : List (List BoundingBox)) (cells : List BoundingBox) :
    Option (List BoundingBox) :=
  rows.mapM (fun row => do
    let y_cell ← pymax_by (fun c => c.y) row
    let h_cell ← pymin_by (fun c => c.height) row
    let y := y_cell.y
    let h := h_cell.height
    let tol := CELL_CLOSENESS_TOLERANCE / 2
    let covering := cells.filter (fun c =>
      decide (c.y ≤ y + tol) && decide (c.y + c.height ≥ y + h - tol))
    let end_cell ← pymax_by (fun c => c.x + c.width) covering
    let start_cell ← pymin_by (fun c => c.x) covering
    let x := start_cell.x
    let w := end_cell.x + end_cell.width - x
    some { x := x, y := y, width := w, height := h })

/-- `_extend_columns`: the mirror of `extend_rows` on the x axis. -/
def extend_columns (columns : List (List BoundingBox))
    (cells : List BoundingBox) : Option (List BoundingBox) :=
  columns.mapM (fun col => do
    let x_cell ← pymax_by (fun c => c.x) col
    let w_cell ← pymin_by (fun c => c.width) col
    let x := x_cell.x
    let w := w_cell.width
    let tol := CELL_CLOSENESS_TOLERANCE / 2
    let covering := cells.filter (fun c =>
      decide (c.x ≤ x + tol) && decide (c.x + c.width ≥ x + w - tol))
    let end_cell ← pymax_by (fun c => c.y + c.height) covering
    let start_cell ← pymin_by (fun c => c.y) covering
    let y := start_cell.y
    let h := end_cell.y + end_cell.height - y
    some { x := x, y := y, width := w, height := h })

/-- `_get_table_rows_from_cells`. -/
def get_table_rows_from_cells (cells : List BoundingBox) :
    Option (List BoundingBox) :=
  if cells.length = 0 then some []
  else extend_rows (group_rows_raw cells) cells

/-- `_get_table_columns_from_cells`. -/
def get_table_columns_from_cells (cells : List BoundingBox) :
    Option (List BoundingBox) :=
  if cells.length = 0 then some []
  else extend_columns (group_columns_raw cells) cells

/-- `get_row_and_column_entities` of `table.py`: assign cells to containing
tables, group each table's cells into row (and, unless `is_header`, column)
entities. -/
def get_row_and_column_entities (table_entities table_cell_entities :
    List Entity) (doc_id page_id : String) (page_num : Int)
    (is_header : Bool) : Option (List Entity × List Entity) :=
  if table_entities.length = 0 ∨ table_cell_entities.length = 0 then
    some ([], [])
  else do
    let tables := table_entities.map (fun table =>
      (table_cell_entities.filter (fun cell =>
        BboxUtils.is_contained_in cell.bbox table.bbox)).map
          (fun cell => cell.bbox))
    let per ← (tables.filter (fun t => t.length > 0)).mapM
      (fun table_cells => do
        let row_bboxes ← get_table_rows_from_cells table_cells
        let row_cat := if is_header then ENTITY_TABLE_HEADER_ROW_ID
                       else ENTITY_TABLE_ROW_ID
        let rows := row_bboxes.map (fun b =>
          mk_entity doc_id page_id page_num row_cat b)
        if is_header then some (rows, ([] : List Entity))
        else do
          let col_bboxes ← get_table_columns_from_cells table_cells
          let cols := col_bboxes.map (fun b =>
            mk_entity doc_id page_id page_num ENTITY_TABLE_COLUMN_ID b)
          some (rows, cols))
    some ((per.map (fun q => q.1)).flatten, (per.map (fun q => q.2)).flatten)

/-- `postprocess_tables` of `postprocess.py`, for one page: append the
inferred row and column entities to the page's entity dictionary, then infer
table header rows.  As in the source, the computed header-row entities are
bound but never inserted into the dictionary. -/
def postprocess_tables_page (entities : EntMap) (doc_id page_id : String)
    (page_num : Int) : Option EntMap := do
  let table_entities := map_getD entities ENTITY_TABLE_ID []
  let table_cell_entities := map_getD entities ENTITY_TABLE_CELL_ID []
  let rc ← get_row_and_column_entities table_entities table_cell_entities
    doc_id page_id page_num false
  let entities := if map_contains entities ENTITY_TABLE_ROW_ID then entities
    else map_set entities ENTITY_TABLE_ROW_ID []
  let entities := if map_contains entities ENTITY_TABLE_COLUMN_ID then
    entities else map_set entities ENTITY_TABLE_COLUMN_ID []
  let entities := map_set entities ENTITY_TABLE_ROW_ID
    (map_getD entities ENTITY_TABLE_ROW_ID [] ++ rc.1)
  let entities := map_set entities ENTITY_TABLE_COLUMN_ID
    (map_getD entities ENTITY_TABLE_COLUMN_ID [] ++ rc.2)
  let tbl_hdr_cell_entities := map_getD entities ENTITY_TABLE_HEADER_CELL_ID []
  let _ ← get_row_and_column_entities table_entities tbl_hdr_cell_entities
    doc_id page_id page_num true
  some entities

/-! ### Example data used by closed theorems -/

/-- A cell whose `cnfStyle` marks it as lying in both the first row and the
first column (a top-left corner cell, as OOXML marks them). -/
def cnf_corner_example : CnfStyle :=
  { firstRow := some "1", lastRow := none, firstColumn := some "1",
    lastColumn := none, oddVBand := none, evenVBand := none,
    oddHBand := none, evenHBand := none }

/-- A table look enabling both first-row and first-column conditional
formatting. -/
def look_corner_example : TableLook :=
  { firstRow := some "1", firstColumn := some "1", lastRow := none,
    lastColumn := none, noHBand := none, noVBand := none }

/-- A cell marked as first-row only. -/
def cnf_single_example : CnfStyle :=
  { firstRow := some "1", lastRow := none, firstColumn := none,
    lastColumn := none, oddVBand := none, evenVBand := none,
    oddHBand := none, evenHBand := none }

/-- A table look enabling only first-row conditional formatting. -/
def look_single_example : TableLook :=
  { firstRow := some "1", firstColumn := none, lastRow := none,
    lastColumn := none, noHBand := none, noVBand := none }

/-- A detected table covering a 100×100 region. -/
def table_entity_example : Entity :=
  mk_entity "d" "d_p0" 0 ENTITY_TABLE_ID ⟨0, 0, 100, 100⟩

/-- A detected table-header cell contained in `table_entity_example`. -/
def header_cell_entity_example : Entity :=
  mk_entity "d" "d_p0" 0 ENTITY_TABLE_HEADER_CELL_ID ⟨0, 0, 100, 10⟩

/-- A page with one detected table and one detected table-header cell. -/
def page_entities_example : EntMap :=
  [(ENTITY_TABLE_ID, [table_entity_example]),
   (ENTITY_TABLE_HEADER_CELL_ID, [header_cell_entity_example])]

/-- Merge of optional levels by maximum (helper for stating how the
observed-builtin fold combines an accumulator with later observations). -/
def omax : Option Int → Option Int → Option Int
  | none, r => r
  | some v, none => some v
  | some v, some r => some (max v r)

/-! ## Theorems -/

set_option maxRecDepth 8000

theorem observe_builtin_pair_at (m : String → Option Int)
    (p : String × Int) (sig : String) :
    observe_builtin_pair m p sig =
      if p.1 = sig then omax (m sig) (some p.2) else m sig := by
  unfold observe_builtin_pair
  rcases hm : m p.1 with _ | prior
  · by_cases hp : p.1 = sig
    · subst hp; simp [hm, omax]
    · simp [hp, Ne.symm hp]
  · by_cases hp : p.1 = sig
    · subst hp
      by_cases hgt : p.2 > prior
      · simp [hm, hgt, omax, max_eq_right (le_of_lt hgt)]
      · simp [hm, hgt, omax, max_eq_left (not_lt.mp hgt)]
    · by_cases hgt : p.2 > prior
      · simp [hgt, hp, Ne.symm hp]
      · simp [hgt, hp]

theorem foldl_observe_builtin (tracker : List (String × Int))
    (m : String → Option Int) (sig : String) :
    tracker.foldl observe_builtin_pair m sig =
      omax (m sig) (max_observed_level sig tracker) := by
  induction tracker generalizing m with
  | nil =>
    simp only [List.foldl_nil, max_observed_level]
    cases m sig <;> rfl
  | cons p rest ih =>
    simp only [List.foldl_cons, max_observed_level]
    rw [ih, observe_builtin_pair_at]
    by_cases hp : p.1 = sig
    · simp only [hp, if_pos rfl]
      rcases m sig with _ | v <;> rcases max_observed_level sig rest with _ | r
      · rfl
      · rfl
      · rfl
      · simp [omax, max_assoc]
    · simp [hp]

/-- **C4** (counterexample).  The claim says the observed-builtin heuristic
map sends a conflicting font signature to the *minimum* observed heading
level.  For a tracker observing levels 1 then 2 for the same signature, the
map built by `ParagraphHeuristic.__build_map` yields 2, not `min 1 2 = 1`. -/
theorem c4_observed_builtin_min_counterexample :
    build_heuristic_map_builtin [("12.0n", 1), ("12.0n", 2)] "12.0n" =
      some 2 ∧ (2 : Int) ≠ min 1 2 := by
  constructor
  · rfl
  · decide

/-- **C4** (amended).  In observed-builtin mode the heuristic map sends every
font signature occurring in the builtin-heading tracker to the numerically
*greatest* heading level observed for it (the lowest-ranking heading, since
heading 9 ranks below heading 1), and signatures never observed to `none`. -/
theorem c4_observed_builtin_max_level (tracker : List (String × Int))
    (sig : String) :
    build_heuristic_map_builtin tracker sig = max_observed_level sig tracker := by
  unfold build_heuristic_map_builtin
  rw [foldl_observe_builtin]
  rfl

/-- **C1** (counterexample).  For the cycling category `COLOR_LIST`, the 28th
emission resets the value to the base value 255 although decrementing the
27th value (201) by `SAT_VAL_STEP` stays at 199 ≥ `VAL_MIN` = 50: the generic
per-paragraph cycling resets at the floor `NONTABLE_VAL_MIN` = 200, not at
`VAL_MIN`, so the reset does not happen "exactly when a decrement would take
the value below VAL_MIN". -/
theorem c1_generic_reset_floor_counterexample :
    (generic_color_seq COLOR_LIST 27).2.2 = 201 ∧
    VAL_MIN ≤ (generic_color_seq COLOR_LIST 27).2.2 - SAT_VAL_STEP ∧
    (generic_color_seq COLOR_LIST 28).2.2 = 255 ∧
    (generic_color_seq COLOR_LIST 28).2.2 ≠
      (generic_color_seq COLOR_LIST 27).2.2 - SAT_VAL_STEP := by
  refine ⟨by decide, by decide, by decide, by decide⟩

/-- **C1** (amended).  Both cycling schemes keep the emitted value component
inside `[VAL_MIN, VAL_MAX]` (for every base value in that interval, along the
whole emission sequence).  The table/table-header cell cycling
(`_make_color_cycle_step`) resets the value to the base value exactly when a
decrement by `SAT_VAL_STEP` would take it below `VAL_MIN`; the generic
per-paragraph cycling (`__update_application_color`) instead resets exactly
when the decrement would take it below `NONTABLE_VAL_MIN` = 200. -/
theorem c1_cycling_value_range (hue sat sat_base val val_base : Int)
    (hcyc : ENTITIES_HUES_WITHOUT_CYCLING.contains hue = false)
    (hb1 : VAL_MIN ≤ val_base) (hb2 : val_base ≤ VAL_MAX)
    (hv1 : VAL_MIN ≤ val) (hv2 : val ≤ VAL_MAX) :
    ((update_application_color (hue, sat_base, val_base) (hue, sat, val)).2.2 =
        if val - SAT_VAL_STEP < NONTABLE_VAL_MIN then val_base
        else val - SAT_VAL_STEP) ∧
    (VAL_MIN ≤
        (update_application_color (hue, sat_base, val_base) (hue, sat, val)).2.2 ∧
      (update_application_color (hue, sat_base, val_base) (hue, sat, val)).2.2 ≤
        VAL_MAX) ∧
    ((make_color_cycle_step sat sat_base val val_base SAT_VAL_STEP).2 =
        if val - SAT_VAL_STEP < VAL_MIN then val_base
        else val - SAT_VAL_STEP) ∧
    (VAL_MIN ≤ (make_color_cycle_step sat sat_base val val_base SAT_VAL_STEP).2 ∧
      (make_color_cycle_step sat sat_base val val_base SAT_VAL_STEP).2 ≤
        VAL_MAX) ∧
    (∀ n, VAL_MIN ≤ (generic_color_seq (hue, sat_base, val_base) n).2.2 ∧
      (generic_color_seq (hue, sat_base, val_base) n).2.2 ≤ VAL_MAX) ∧
    (∀ n, VAL_MIN ≤ (table_cycle_seq sat_base val_base n).2 ∧
      (table_cycle_seq sat_base val_base n).2 ≤ VAL_MAX) := by
  have hstep : ∀ s v : Int,
      (update_application_color (hue, sat_base, val_base) (hue, s, v)).2.2 =
        if v - SAT_VAL_STEP < NONTABLE_VAL_MIN then val_base
        else v - SAT_VAL_STEP := by
    intro s v
    simp only [update_application_color, hcyc]
    split <;> simp_all
  have htab : ∀ s v : Int,
      (make_color_cycle_step s sat_base v val_base SAT_VAL_STEP).2 =
        if v - SAT_VAL_STEP < VAL_MIN then val_base else v - SAT_VAL_STEP := by
    intro s v
    simp only [make_color_cycle_step]
    split
    · split <;> rfl
    · rfl
  have hgenbound : ∀ s v : Int, VAL_MIN ≤ v → v ≤ VAL_MAX →
      VAL_MIN ≤ (update_application_color (hue, sat_base, val_base)
        (hue, s, v)).2.2 ∧
      (update_application_color (hue, sat_base, val_base) (hue, s, v)).2.2 ≤
        VAL_MAX := by
    intro s v h1 h2
    rw [hstep]
    revert h1 h2 hb1 hb2
    simp only [VAL_MIN, VAL_MAX, NONTABLE_VAL_MIN, SAT_VAL_STEP]
    split <;> omega
  have htabbound : ∀ s v : Int, VAL_MIN ≤ v → v ≤ VAL_MAX →
      VAL_MIN ≤ (make_color_cycle_step s sat_base v val_base SAT_VAL_STEP).2 ∧
      (make_color_cycle_step s sat_base v val_base SAT_VAL_STEP).2 ≤ VAL_MAX := by
    intro s v h1 h2
    rw [htab]
    revert h1 h2 hb1 hb2
    simp only [VAL_MIN, VAL_MAX, SAT_VAL_STEP]
    split <;> omega
  have hfst : ∀ n, (generic_color_seq (hue, sat_base, val_base) n).1 = hue := by
    intro n
    induction n with
    | zero => rfl
    | succ k ih =>
      simp only [generic_color_seq, update_application_color]
      split
      · exact ih
      · exact ih
  refine ⟨hstep sat val, hgenbound sat val hv1 hv2, htab sat val,
    htabbound sat val hv1 hv2, ?_, ?_⟩
  · intro n
    induction n with
    | zero => exact ⟨hb1, hb2⟩
    | succ k ih =>
      have hk := hfst k
      rcases hcur : generic_color_seq (hue, sat_base, val_base) k with ⟨h1, s1, v1⟩
      rw [hcur] at hk ih
      simp only at hk
      subst hk
      simpa only [generic_color_seq, hcur] using
        hgenbound s1 v1 ih.1 ih.2
  · intro n
    induction n with
    | zero => exact ⟨hb1, hb2⟩
    | succ k ih =>
      rcases hcur : table_cycle_seq sat_base val_base k with ⟨s1, v1⟩
      rw [hcur] at ih
      simpa only [table_cycle_seq, hcur] using htabbound s1 v1 ih.1 ih.2

theorem c1_cycling_value_range_witness :
    ENTITIES_HUES_WITHOUT_CYCLING.contains 28 = false ∧
    VAL_MIN ≤ (update_application_color (28, 255, 255) (28, 255, 255)).2.2 ∧
    VAL_MIN ≤ (make_color_cycle_step 255 255 255 255 SAT_VAL_STEP).2 :=
  ⟨by decide,
    (c1_cycling_value_range 28 255 255 255 255 (by decide) (by decide)
      (by decide) (by decide) (by decide)).2.1.1,
    (c1_cycling_value_range 28 255 255 255 255 (by decide) (by decide)
      (by decide) (by decide) (by decide)).2.2.2.1.1⟩

/-- **C2**.  The configured palette satisfies both construction-time checks of
`settings/colors.py`: the hue of the table base color minus the hue of the
table-header base color equals `GRANULARITY`, and every palette color's
(h, s, v) lies in the valid device ranges (hue in `[HUE_MIN, HUE_MAX]`,
saturation in `[SAT_MIN, SAT_MAX]`, value in `[VAL_MIN, VAL_MAX]`).
Moreover any palette violating either condition fails the corresponding
check. -/
theorem c2_palette_invariants :
    granularity_check COLOR_TABLE COLOR_TABLE_HEADER = true ∧
    COLOR_TABLE.1 - COLOR_TABLE_HEADER.1 = GRANULARITY ∧
    palette_range_check ALL_COLORS = true ∧
    (∀ c, c ∈ ALL_COLORS → color_in_range c = true) ∧
    (∀ cs c, c ∈ cs → color_in_range c = false →
      palette_range_check cs = false) ∧
    (∀ t th : HsvColor, t.1 - th.1 ≠ GRANULARITY →
      granularity_check t th = false) := by
  refine ⟨by decide, by decide, by decide, by decide, ?_, ?_⟩
  · intro cs c hmem hbad
    cases hall : palette_range_check cs
    · rfl
    · have := List.all_eq_true.mp hall c hmem
      rw [hbad] at this
      exact absurd this (by simp)
  · intro t th hne
    simpa [granularity_check] using hne

theorem c2_palette_invariants_witness :
    (0, 300, 0) ∈ [((0 : Int), (300 : Int), (0 : Int))] ∧
    color_in_range (0, 300, 0) = false ∧
    palette_range_check [((0 : Int), (300 : Int), (0 : Int))] = false ∧
    granularity_check (10, 255, 255) (1, 255, 255) = false :=
  ⟨by decide, by decide,
    c2_palette_invariants.2.2.2.2.1 _ (0, 300, 0) (by decide) (by decide),
    c2_palette_invariants.2.2.2.2.2 (10, 255, 255) (1, 255, 255) (by decide)⟩

/-- **C5** (counterexample).  A paragraph opening with the curly opening
double quote (U+201C) and closing with the matching curly closing double
quote (U+201D) is *not* classified as a quote: `quote_check` compares the
first and last character for equality and only accepts the straight quotes
of `QUOTE_SYMBOLS`, which contains no curly quote. -/
theorem c5_quote_check_curly_counterexample :
    quote_check [Char.ofNat 8220, 'a', Char.ofNat 8221] = false ∧
    [Char.ofNat 8220, 'a', Char.ofNat 8221].head? = some (Char.ofNat 8220) ∧
    [Char.ofNat 8220, 'a', Char.ofNat 8221].getLast? = some (Char.ofNat 8221) ∧
    QUOTE_SYMBOLS.contains (Char.ofNat 8220) = false ∧
    QUOTE_SYMBOLS.contains (Char.ofNat 8221) = false := by
  refine ⟨by decide, by decide, by decide, by decide, by decide⟩

theorem getLast?_cons_eq_getLastD (c : Char) (cs : List Char) :
    (c :: cs).getLast? = some (cs.getLastD c) := by
  induction cs generalizing c with
  | nil => rfl
  | cons d ds ih => rw [List.getLast?_cons_cons, ih d, List.getLastD_cons]

/-- **C5** (amended).  For every non-empty paragraph text, `quote_check`
returns true if and only if the first character *equals* the last character
and that character is one of the two straight quotes (U+0022, U+0027); curly
quotes are not recognized. -/
theorem c5_quote_check_characterization (l : List Char) (h : l ≠ []) :
    quote_check l = true ↔
      ∃ c, l.head? = some c ∧ l.getLast? = some c ∧
        (c = Char.ofNat 34 ∨ c = Char.ofNat 39) := by
  rcases l with _ | ⟨c, cs⟩
  · exact absurd rfl h
  · rw [getLast?_cons_eq_getLastD]
    simp only [quote_check, Bool.and_eq_true, beq_iff_eq, List.head?_cons,
      Option.some.injEq]
    constructor
    · rintro ⟨hlast, hmem⟩
      refine ⟨c, rfl, hlast.symm, ?_⟩
      have hmem2 : c ∈ QUOTE_SYMBOLS := by simpa using hmem
      simpa [QUOTE_SYMBOLS] using hmem2
    · rintro ⟨d, hd, hlast, hsym⟩
      subst hd
      refine ⟨hlast.symm, ?_⟩
      rcases hsym with h34 | h39 <;> subst_vars <;> decide

theorem c5_quote_check_characterization_witness :
    quote_check [Char.ofNat 34, 'x', Char.ofNat 34] = true ↔
      ∃ c, [Char.ofNat 34, 'x', Char.ofNat 34].head? = some c ∧
        [Char.ofNat 34, 'x', Char.ofNat 34].getLast? = some c ∧
        (c = Char.ofNat 34 ∨ c = Char.ofNat 39) :=
  c5_quote_check_characterization [Char.ofNat 34, 'x', Char.ofNat 34] (by simp)

/-- **C6** (counterexample).  A reachable flag combination selecting more than
one conditional region makes the `assert len(applied_styles) == 1` of
`__get_tc_cond_style_applied` fail (modelled by `none`): a top-left corner
cell carries both the first-row and first-column `cnfStyle` flags, and a
table look may enable both regions, so two conditional style blocks are
selected. -/
theorem c6_cond_style_assert_counterexample :
    use_conditional_styling look_corner_example = true ∧
    1 ≤ (applied_styles cnf_corner_example look_corner_example).length ∧
    get_tc_cond_style_applied cnf_corner_example look_corner_example =
      none := by
  refine ⟨by decide, by decide, by decide⟩

/-- **C6** (amended).  When conditional styling is enabled and the flags
select at least one conditional region, the resolution succeeds (the
exactly-one assertion holds) if and only if the flags select *exactly one*
region; combinations selecting two or more regions — e.g. a corner cell with
both first-row and first-column enabled — make the assertion fail. -/
theorem c6_cond_style_exactly_one (cnf : CnfStyle) (look : TableLook)
    (hcond : use_conditional_styling look = true)
    (hsel : 1 ≤ (applied_styles cnf look).length) :
    (get_tc_cond_style_applied cnf look).isSome = true ↔
      (applied_styles cnf look).length = 1 := by
  rcases happ : applied_styles cnf look with _ | ⟨a, _ | ⟨b, t⟩⟩
  · rw [happ] at hsel; simp at hsel
  · simp [get_tc_cond_style_applied, hcond, happ]
  · simp [get_tc_cond_style_applied, hcond, happ]

theorem c6_cond_style_exactly_one_witness :
    use_conditional_styling look_single_example = true ∧
    1 ≤ (applied_styles cnf_single_example look_single_example).length ∧
    ((get_tc_cond_style_applied cnf_single_example
        look_single_example).isSome = true ↔
      (applied_styles cnf_single_example look_single_example).length = 1) :=
  ⟨by decide, by decide,
    c6_cond_style_exactly_one cnf_single_example look_single_example
      (by decide) (by decide)⟩

/-- **C3**.  Word-to-entity linking is word-relative: an entity is among a
word's candidates iff it is on the page and
`intersection_area(word, entity) / word_area ≥ threshold` (for a word of
nonnegative dimensions and a positive threshold; a zero-area word links to
nothing because the ratio is taken relative to the word's own area).
Moreover the test is asymmetric: a 1×1 word fully inside a 10×10 entity
links, while entity-relative containment fails (the overlap covers only
1/100 of the entity's area). -/
theorem c3_word_entity_linking (word : Word) (entities : List Entity)
    (e : Entity) (threshold : ℚ)
    (hw : 0 ≤ word.bbox.width) (hh : 0 ≤ word.bbox.height)
    (ht : 0 < threshold) (ht1 : threshold ≤ 1) :
    (e ∈ TextMatching.find_candidate_entities word entities threshold ↔
      e ∈ entities ∧
        threshold ≤ area_of_overlap word.bbox e.bbox / word.bbox.area) ∧
    (TextMatching.is_contained_in ⟨0, 0, 1, 1⟩ ⟨0, 0, 10, 10⟩ threshold =
        true ∧
      area_of_overlap ⟨0, 0, 10, 10⟩ ⟨0, 0, 1, 1⟩ /
          BoundingBox.area ⟨0, 0, 10, 10⟩ < 1) := by
  refine ⟨?_, ?_, ?_⟩
  · rw [TextMatching.find_candidate_entities, List.mem_filter]
    constructor
    · rintro ⟨hmem, hp⟩
      refine ⟨hmem, ?_⟩
      unfold TextMatching.is_contained_in at hp
      by_cases h0 : word.bbox.area ≤ 0
      · rw [if_pos h0] at hp
        exact absurd hp (by simp)
      · rw [if_neg h0] at hp
        simpa [ge_iff_le] using of_decide_eq_true hp
    · rintro ⟨hmem, hp⟩
      refine ⟨hmem, ?_⟩
      unfold TextMatching.is_contained_in
      by_cases h0 : word.bbox.area ≤ 0
      · exfalso
        have hz : word.bbox.area = 0 :=
          le_antisymm h0 (mul_nonneg hw hh)
        rw [hz, div_zero] at hp
        exact absurd hp (not_le.mpr ht)
      · rw [if_neg h0]
        exact decide_eq_true (by simpa [ge_iff_le] using hp)
  · unfold TextMatching.is_contained_in
    rw [if_neg (by norm_num [BoundingBox.area])]
    refine decide_eq_true ?_
    have hov : area_of_overlap ⟨0, 0, 1, 1⟩ ⟨0, 0, 10, 10⟩ = 1 := by
      simp [area_of_overlap]
    rw [hov]
    simpa [BoundingBox.area, ge_iff_le] using ht1
  · have hov : area_of_overlap ⟨0, 0, 10, 10⟩ ⟨0, 0, 1, 1⟩ = 1 := by
      simp [area_of_overlap]
    rw [hov]
    norm_num [BoundingBox.area]

theorem c3_word_entity_linking_witness :
    (0 : ℚ) ≤ (1 : ℚ) ∧ (0 : ℚ) < 1/2 ∧ (1/2 : ℚ) ≤ 1 ∧
    (mk_entity "d" "p" 0 0 ⟨0, 0, 10, 10⟩ ∈
        TextMatching.find_candidate_entities
          { doc_id := "d", entity_ids := [], entity_categories := [],
            page_num := 0, bbox := ⟨0, 0, 1, 1⟩, text := "w" }
          [mk_entity "d" "p" 0 0 ⟨0, 0, 10, 10⟩] (1/2) ↔
      mk_entity "d" "p" 0 0 ⟨0, 0, 10, 10⟩ ∈
          [mk_entity "d" "p" 0 0 ⟨0, 0, 10, 10⟩] ∧
        (1/2 : ℚ) ≤
          area_of_overlap ⟨0, 0, 1, 1⟩
              (mk_entity "d" "p" 0 0 ⟨0, 0, 10, 10⟩).bbox /
            BoundingBox.area ⟨0, 0, 1, 1⟩) :=
  ⟨by norm_num, by norm_num, by norm_num,
    (c3_word_entity_linking
      { doc_id := "d", entity_ids := [], entity_categories := [],
        page_num := 0, bbox := ⟨0, 0, 1, 1⟩, text := "w" }
      [mk_entity "d" "p" 0 0 ⟨0, 0, 10, 10⟩]
      (mk_entity "d" "p" 0 0 ⟨0, 0, 10, 10⟩) (1/2)
      (by norm_num) (by norm_num) (by norm_num) (by norm_num)).1⟩

theorem dedup_aux_eq_keep_first (l : List Entity) (seen : List EntityId) :
    dedup_aux seen l =
      keep_first_occurrences (l.filter (fun e => decide (e.id ∉ seen))) := by
  induction l generalizing seen with
  | nil => simp [dedup_aux, keep_first_occurrences]
  | cons e es ih =>
    by_cases hin : e.id ∈ seen
    · rw [show dedup_aux seen (e :: es) = dedup_aux seen es by
        simp [dedup_aux, hin]]
      rw [ih]
      congr 1
      simp [List.filter_cons, hin]
    · rw [show dedup_aux seen (e :: es) =
        e :: dedup_aux (e.id :: seen) es by simp [dedup_aux, hin]]
      rw [ih]
      have hfe : (e :: es).filter (fun x => decide (x.id ∉ seen)) =
          e :: es.filter (fun x => decide (x.id ∉ seen)) := by
        simp [List.filter_cons, hin]
      rw [hfe]
      rw [show keep_first_occurrences
          (e :: es.filter (fun x => decide (x.id ∉ seen))) =
        e :: keep_first_occurrences
          ((es.filter (fun x => decide (x.id ∉ seen))).filter
            (fun x => decide (x.id ≠ e.id))) from by
        simp [keep_first_occurrences]]
      have hff : es.filter (fun x => decide (x.id ∉ e.id :: seen)) =
          (es.filter (fun x => decide (x.id ∉ seen))).filter
            (fun x => decide (x.id ≠ e.id)) := by
        rw [List.filter_filter]
        apply List.filter_congr
        intro a _
        by_cases h1 : a.id = e.id <;> by_cases h2 : a.id ∈ seen <;>
          simp [h1, h2]
      rw [hff]

theorem keep_first_filter_comm (p : Entity → Bool)
    (hq : ∀ x y : Entity, x.id = y.id → p x = p y) (l : List Entity) :
    keep_first_occurrences (l.filter p) =
      (keep_first_occurrences l).filter p := by
  induction l using keep_first_occurrences.induct with
  | case1 => simp [keep_first_occurrences]
  | case2 e es ih =>
    by_cases hp : p e
    · rw [show (e :: es).filter p = e :: es.filter p by
        simp [List.filter_cons, hp]]
      rw [show keep_first_occurrences (e :: es.filter p) =
        e :: keep_first_occurrences ((es.filter p).filter
          (fun x => decide (x.id ≠ e.id))) from by
        simp [keep_first_occurrences]]
      rw [show keep_first_occurrences (e :: es) =
        e :: keep_first_occurrences (es.filter
          (fun x => decide (x.id ≠ e.id))) from by
        simp [keep_first_occurrences]]
      rw [show (e :: keep_first_occurrences (es.filter
          (fun x => decide (x.id ≠ e.id)))).filter p =
        e :: (keep_first_occurrences (es.filter
          (fun x => decide (x.id ≠ e.id)))).filter p from by
        simp [List.filter_cons, hp]]
      have hff : (es.filter p).filter (fun x => decide (x.id ≠ e.id)) =
          (es.filter (fun x => decide (x.id ≠ e.id))).filter p := by
        rw [List.filter_filter, List.filter_filter]
        apply List.filter_congr
        intro a _
        exact Bool.and_comm _ _
      rw [hff, ih]
    · rw [show (e :: es).filter p = es.filter p by
        simp [List.filter_cons, hp]]
      rw [show keep_first_occurrences (e :: es) =
        e :: keep_first_occurrences (es.filter
          (fun x => decide (x.id ≠ e.id))) from by
        simp [keep_first_occurrences]]
      rw [show (e :: keep_first_occurrences (es.filter
          (fun x => decide (x.id ≠ e.id)))).filter p =
        (keep_first_occurrences (es.filter
          (fun x => decide (x.id ≠ e.id)))).filter p from by
        simp [List.filter_cons, hp]]
      have hff : es.filter p =
          (es.filter (fun x => decide (x.id ≠ e.id))).filter p := by
        rw [List.filter_filter]
        apply List.filter_congr
        intro a _
        by_cases h1 : a.id = e.id
        · have hpe := hq a e h1
          rw [hpe]
          simp [hp, h1]
        · simp [h1]
      rw [hff, ih]

theorem keep_first_idem (l : List Entity) :
    keep_first_occurrences (keep_first_occurrences l) =
      keep_first_occurrences l := by
  induction l using keep_first_occurrences.induct with
  | case1 => simp [keep_first_occurrences]
  | case2 e es ih =>
    rw [show keep_first_occurrences (e :: es) =
      e :: keep_first_occurrences (es.filter
        (fun x => decide (x.id ≠ e.id))) from by
      simp [keep_first_occurrences]]
    rw [show keep_first_occurrences
        (e :: keep_first_occurrences (es.filter
          (fun x => decide (x.id ≠ e.id)))) =
      e :: keep_first_occurrences
        ((keep_first_occurrences (es.filter
          (fun x => decide (x.id ≠ e.id)))).filter
            (fun x => decide (x.id ≠ e.id))) from by
      simp [keep_first_occurrences]]
    congr 1
    rw [← keep_first_filter_comm (fun x => decide (x.id ≠ e.id))
      (fun x y hxy => by simp [hxy]) (es.filter
        (fun x => decide (x.id ≠ e.id)))]
    rw [show (es.filter (fun x => decide (x.id ≠ e.id))).filter
        (fun x => decide (x.id ≠ e.id)) =
      es.filter (fun x => decide (x.id ≠ e.id)) from
      List.filter_eq_self.mpr
        (fun a ha => (List.mem_filter.mp ha).2)]
    exact ih

/-- **C8**.  The deduplication filter is idempotent, and a single
application keeps exactly the first occurrence of each `Entity.id`, in input
order (`keep_first_occurrences` is that specified behavior, written from the
spec's words). -/
theorem c8_dedup_idempotent_keeps_first (entities : List Entity) :
    apply_deduplication_filter (apply_deduplication_filter entities) =
      apply_deduplication_filter entities ∧
    apply_deduplication_filter entities = keep_first_occurrences entities := by
  have hkf : apply_deduplication_filter entities =
      keep_first_occurrences entities := by
    rw [apply_deduplication_filter, dedup_aux_eq_keep_first]
    congr 1
    exact List.filter_eq_self.mpr (fun a _ => by simp)
  constructor
  · rw [hkf]
    rw [show apply_deduplication_filter (keep_first_occurrences entities) =
      keep_first_occurrences (keep_first_occurrences entities) from by
      rw [apply_deduplication_filter, dedup_aux_eq_keep_first]
      congr 1
      exact List.filter_eq_self.mpr (fun a _ => by simp)]
    exact keep_first_idem entities
  · exact hkf

/-- **C10**.  An entity's `id` is computed once at construction
(`__post_init__`); `_trim_entity` replaces the bounding box but never
recomputes `id`, so the trimmed entity keeps the pre-trim id (links recorded
by id keep referring to it), and whenever trimming actually changed the box,
the kept id no longer equals the hash of the entity's current field
values. -/
theorem c10_trim_preserves_id (doc page : String) (num cat : Int)
    (bbox : BoundingBox) (wbs : List BoundingBox) (h : wbs ≠ []) :
    ∃ e2, trim_entity (mk_entity doc page num cat bbox) wbs = some e2 ∧
      e2.id = (mk_entity doc page num cat bbox).id ∧
      e2.doc_id = doc ∧ e2.page_id = page ∧ e2.page_num = num ∧
      e2.entity_category = cat ∧
      (e2.bbox ≠ bbox →
        e2.id ≠ entity_id_of e2.doc_id e2.page_id e2.page_num
          e2.entity_category e2.bbox) := by
  rcases wbs with _ | ⟨b, bs⟩
  · exact absurd rfl h
  · refine ⟨_, rfl, rfl, rfl, rfl, rfl, rfl, ?_⟩
    intro hne heq
    simp only [mk_entity, entity_id_of, Prod.mk.injEq, true_and] at heq
    exact hne heq.symm

theorem c10_trim_preserves_id_witness :
    ([⟨1, 1, 2, 2⟩] : List BoundingBox) ≠ [] ∧
    ∃ e2, trim_entity (mk_entity "d" "p" 0 0 ⟨0, 0, 5, 5⟩)
        [⟨1, 1, 2, 2⟩] = some e2 ∧
      e2.id = (mk_entity "d" "p" 0 0 ⟨0, 0, 5, 5⟩).id ∧
      e2.doc_id = "d" ∧ e2.page_id = "p" ∧ e2.page_num = 0 ∧
      e2.entity_category = 0 ∧
      (e2.bbox ≠ ⟨0, 0, 5, 5⟩ →
        e2.id ≠ entity_id_of e2.doc_id e2.page_id e2.page_num
          e2.entity_category e2.bbox) :=
  ⟨by simp, c10_trim_preserves_id "d" "p" 0 0 ⟨0, 0, 5, 5⟩
    [⟨1, 1, 2, 2⟩] (by simp)⟩

theorem mem_ids_foldl (x : EntityId) (ws : List Word)
    (acc : List EntityId) :
    x ∈ ws.foldl (fun a w => a ++ w.entity_ids) acc ↔
      x ∈ acc ∨ ∃ w ∈ ws, x ∈ w.entity_ids := by
  induction ws generalizing acc with
  | nil => simp
  | cons w ws ih =>
    rw [List.foldl_cons, ih]
    simp [List.mem_append, or_assoc]

theorem bboxes_foldl_ne_nil (eid : EntityId) (bbox : BoundingBox)
    (ids : List EntityId) (acc : List BoundingBox) (h : acc ≠ []) :
    ids.foldl (fun a i => if i = eid then a ++ [bbox] else a) acc ≠ [] := by
  induction ids generalizing acc with
  | nil => simpa using h
  | cons i is ih =>
    rw [List.foldl_cons]
    by_cases hi : i = eid
    · rw [if_pos hi]
      exact ih _ (by simp)
    · rw [if_neg hi]
      exact ih _ h

theorem bboxes_foldl_hit (eid : EntityId) (bbox : BoundingBox)
    (ids : List EntityId) (acc : List BoundingBox) (h : eid ∈ ids) :
    ids.foldl (fun a i => if i = eid then a ++ [bbox] else a) acc ≠ [] := by
  induction ids generalizing acc with
  | nil => simp at h
  | cons i is ih =>
    rw [List.foldl_cons]
    by_cases hi : i = eid
    · rw [if_pos hi]
      exact bboxes_foldl_ne_nil eid bbox is _ (by simp)
    · rw [if_neg hi]
      refine ih _ ?_
      rcases List.mem_cons.mp h with h1 | h2
      · exact absurd h1.symm hi
      · exact h2

theorem bboxes_outer_pres (eid : EntityId) (ws : List Word)
    (acc : List BoundingBox) (h : acc ≠ []) :
    ws.foldl (fun a w => w.entity_ids.foldl
      (fun a2 i => if i = eid then a2 ++ [w.bbox] else a2) a) acc ≠ [] := by
  induction ws generalizing acc with
  | nil => simpa using h
  | cons w ws ih =>
    rw [List.foldl_cons]
    exact ih _ (bboxes_foldl_ne_nil eid w.bbox w.entity_ids acc h)

theorem bounding_boxes_nonempty_of_linked (words : List Word)
    (eid : EntityId) (acc : List BoundingBox)
    (h : ∃ w ∈ words, eid ∈ w.entity_ids) :
    words.foldl (fun a w => w.entity_ids.foldl
      (fun a2 i => if i = eid then a2 ++ [w.bbox] else a2) a) acc ≠ [] := by
  induction words generalizing acc with
  | nil => simp at h
  | cons w ws ih =>
    rw [List.foldl_cons]
    rcases h with ⟨w0, hw0, hid⟩
    rcases List.mem_cons.mp hw0 with h1 | h2
    · subst h1
      exact bboxes_outer_pres eid ws _
        (bboxes_foldl_hit eid w0.bbox w0.entity_ids acc hid)
    · exact ih _ ⟨w0, h2, hid⟩

theorem trim_entity_isSome (e : Entity) (wbs : List BoundingBox)
    (h : wbs ≠ []) : (trim_entity e wbs).isSome = true := by
  rcases wbs with _ | ⟨b, bs⟩
  · exact absurd rfl h
  · rfl

theorem mapM_option_isSome {α β : Type} (f : α → Option β) (l : List α)
    (h : ∀ a ∈ l, (f a).isSome = true) : (l.mapM f).isSome = true := by
  induction l with
  | nil => rfl
  | cons a as ih =>
    rw [List.mapM_cons]
    rcases hfa : f a with _ | b
    · have hh := h a (by simp)
      rw [hfa] at hh
      simp at hh
    · have has : (as.mapM f).isSome = true :=
        ih (fun x hx => h x (by simp [hx]))
      rcases hmas : as.mapM f with _ | bs
      · rw [hmas] at has
        simp at has
      · simp [hmas]

theorem allowed_sub_exclude (x : Int)
    (h : ALLOWED_EMPTY_ENTITY_CATEGORY_IDS.contains x = true) :
    EXCLUDE_ENTITIES_FROM_TRIMMING.contains x = true := by
  have hx : x ∈ ALLOWED_EMPTY_ENTITY_CATEGORY_IDS := by simpa using h
  simp only [ALLOWED_EMPTY_ENTITY_CATEGORY_IDS, List.mem_cons,
    List.not_mem_nil, or_false] at hx
  rcases hx with h | h | h | h | h | h | h | h | h <;> subst h <;> decide

/-- **C9**.  In the content-based postprocessing pass, the allowed-empty
category list of the emptiness filter coincides (as a set) with the trim
exclusion list; consequently every entity that reaches `_trim_entity` has at
least one linked word bounding box (its category was subjected to the
emptiness filter, which ran first over the same word list), the aggregations
inside `_trim_entity` are over non-empty lists, and the whole
emptiness-then-trimming pass never fails. -/
theorem c9_emptiness_then_trimming_safe (entities : EntMap)
    (words : List Word) :
    (∀ c : Int, c ∈ ALLOWED_EMPTY_ENTITY_CATEGORY_IDS ↔
        c ∈ EXCLUDE_ENTITIES_FROM_TRIMMING) ∧
    (∀ p ∈ apply_emptiness_filter entities words,
      EXCLUDE_ENTITIES_FROM_TRIMMING.contains p.1 = false →
      ∀ e ∈ p.2, bounding_boxes_per_entity_id words e.id ≠ []) ∧
    (postprocess_entities_content_based_page entities words).isSome =
      true := by
  have hlinked : ∀ p ∈ apply_emptiness_filter entities words,
      EXCLUDE_ENTITIES_FROM_TRIMMING.contains p.1 = false →
      ∀ e ∈ p.2, bounding_boxes_per_entity_id words e.id ≠ [] := by
    intro p hp hexc e he
    rcases List.mem_map.mp hp with ⟨q, hq, hfq⟩
    by_cases hall : ALLOWED_EMPTY_ENTITY_CATEGORY_IDS.contains q.1 = true
    · exfalso
      rw [if_pos hall] at hfq
      subst hfq
      rw [allowed_sub_exclude q.1 hall] at hexc
      simp at hexc
    · rw [if_neg hall] at hfq
      subst hfq
      simp only [List.mem_filter] at he
      have hid : e.id ∈ entity_ids_with_words words :=
        of_decide_eq_true he.2
      have hex : ∃ w ∈ words, e.id ∈ w.entity_ids := by
        have := (mem_ids_foldl e.id words []).mp hid
        simpa using this
      exact bounding_boxes_nonempty_of_linked words e.id [] hex
  refine ⟨?_, hlinked, ?_⟩
  · intro c
    simp only [ALLOWED_EMPTY_ENTITY_CATEGORY_IDS,
      EXCLUDE_ENTITIES_FROM_TRIMMING, ENTITY_TABLE_ID, ENTITY_TABLE_ROW_ID,
      ENTITY_TABLE_COLUMN_ID, ENTITY_TABLE_CELL_ID, ENTITY_TABLE_HEADER_ID,
      ENTITY_TABLE_HEADER_ROW_ID, ENTITY_TABLE_HEADER_CELL_ID,
      ENTITY_FIGURE_ID, ENTITY_FORM_FIELD_ID, List.mem_cons,
      List.not_mem_nil, or_false]
    constructor <;> intro h <;> tauto
  · unfold postprocess_entities_content_based_page apply_trimming_transform
    apply mapM_option_isSome
    intro p hp
    by_cases hexc : p.1 ∈ EXCLUDE_ENTITIES_FROM_TRIMMING
    · simp [hexc]
    · have hexc2 : EXCLUDE_ENTITIES_FROM_TRIMMING.contains p.1 = false := by
        cases hb : EXCLUDE_ENTITIES_FROM_TRIMMING.contains p.1 with
        | false => rfl
        | true => exact absurd (by simpa using hb) hexc
      have hin : (p.2.mapM (fun e =>
          trim_entity e (bounding_boxes_per_entity_id words e.id))).isSome =
            true :=
        mapM_option_isSome _ _ (fun e he =>
          trim_entity_isSome _ _ (hlinked p hp hexc2 e he))
      rcases hsome : p.2.mapM (fun e =>
          trim_entity e (bounding_boxes_per_entity_id words e.id)) with
        _ | es
      · rw [hsome] at hin
        simp at hin
      · simp [hexc, hsome]

/-- **C7** (the code evaluated at a failing input).  For a page with one
detected table and one detected table-header cell contained in it,
`get_row_and_column_entities` invoked for the header cells does infer a
header-row entity (first conjunct) and no columns, but `postprocess_tables`
binds that result without ever inserting it into the page's per-category
entity dictionary: the final dictionary gains row and column keys only, and
contains no `ENTITY_TABLE_HEADER_ROW_ID` key at all (third conjunct), so the
inferred header rows never appear in the page's entity output. -/
theorem c7_header_rows_inferred_but_dropped :
    get_row_and_column_entities [table_entity_example]
        [header_cell_entity_example] "d" "d_p0" 0 true =
      some ([mk_entity "d" "d_p0" 0 ENTITY_TABLE_HEADER_ROW_ID
        (BoundingBox.mk 0 0 100 10)], []) ∧
    postprocess_tables_page page_entities_example "d" "d_p0" 0 =
      some [(ENTITY_TABLE_ID, [table_entity_example]),
            (ENTITY_TABLE_HEADER_CELL_ID, [header_cell_entity_example]),
            (ENTITY_TABLE_ROW_ID, []), (ENTITY_TABLE_COLUMN_ID, [])] ∧
    map_contains [(ENTITY_TABLE_ID, [table_entity_example]),
            (ENTITY_TABLE_HEADER_CELL_ID, [header_cell_entity_example]),
            (ENTITY_TABLE_ROW_ID, []), (ENTITY_TABLE_COLUMN_ID, [])]
        ENTITY_TABLE_HEADER_ROW_ID = false := by
  refine ⟨?_, ?_, ?_⟩
  · norm_num [get_row_and_column_entities, table_entity_example,
      header_cell_entity_example, mk_entity, BboxUtils.is_contained_in,
      isclose, area_of_overlap, REL_TOL_DEFAULT, max_def, min_def,
      get_table_rows_from_cells, group_rows_raw, unique_vals, extend_rows,
      pymax_by, pymin_by, CELL_CLOSENESS_TOLERANCE, List.filter_cons,
      List.mapM_cons, List.mapM_nil, List.mapM.loop, Option.bind]
  · norm_num [postprocess_tables_page, page_entities_example, map_getD,
      map_contains, map_set, List.find?, get_row_and_column_entities,
      table_entity_example, header_cell_entity_example, mk_entity,
      BboxUtils.is_contained_in, isclose, area_of_overlap, REL_TOL_DEFAULT,
      max_def, min_def, get_table_rows_from_cells, group_rows_raw,
      unique_vals, extend_rows, pymax_by, pymin_by,
      CELL_CLOSENESS_TOLERANCE, List.filter_cons, List.mapM_cons,
      List.mapM_nil, List.mapM.loop, Option.bind, ENTITY_TABLE_ID,
      ENTITY_TABLE_ROW_ID, ENTITY_TABLE_COLUMN_ID,
      ENTITY_TABLE_CELL_ID, ENTITY_TABLE_HEADER_CELL_ID,
      ENTITY_TABLE_HEADER_ROW_ID]
  · norm_num [map_contains, List.find?, ENTITY_TABLE_ID,
      ENTITY_TABLE_ROW_ID, ENTITY_TABLE_COLUMN_ID,
      ENTITY_TABLE_HEADER_CELL_ID, ENTITY_TABLE_HEADER_ROW_ID]

end WordScape
